import Mathlib

/-!
Verification of the Conviva player-integration session lifecycle tracker.

The definitions below are a shallow embedding of the TypeScript sources:
`ConvivaAnalyticsTracker` (session lifecycle, ad breaks, stall timer,
player-event handling), `ConvivaAnalyticsSsai` (server-side ad insertion
entry points), `PlayerStateHelper`, and the wiring in `ConvivaAnalytics`.
Outward vendor-SDK calls are modelled as an output trace of `Call` values;
tracker methods are functions from tracker state (plus a snapshot of the
attached player) to a new state and the list of vendor calls they emit.
-/

namespace ConvivaModel

/-- Conviva player states (Conviva.Constants.PlayerState). -/
inductive PlayerState
  | stopped
  | buffering
  | playing
  | paused
  deriving DecidableEq, Repr

/-- Conviva ad technology (Conviva.Constants.AdType). -/
inductive AdType
  | clientSide
  | serverSide
  deriving DecidableEq, Repr

/-- Conviva ad player kind (Conviva.Constants.AdPlayer). -/
inductive AdPlayerKind
  | separate
  | content
  deriving DecidableEq, Repr

/-- Conviva error severities (Conviva.Constants.ErrorSeverity). -/
inductive ErrorSeverity
  | fatal
  | warning
  deriving DecidableEq, Repr

/-- Conviva playback metric keys (Conviva.Constants.Playback). -/
inductive MetricKey
  | playerState
  | bitrate
  | playHeadTime
  | seekStarted
  | seekEnded
  | audioLanguage
  | subtitlesLanguage
  | closedCaptionsLanguage
  | resolution
  | renderedFramerate
  deriving DecidableEq, Repr

/-- Values carried by a playback/ad metric. -/
inductive MetricValue
  | state (s : PlayerState)
  | num (n : Int)
  | str (s : String)
  deriving DecidableEq, Repr

/-- Outward vendor-SDK calls made by the tracker (the observable trace). -/
inductive Call
  | reportPlaybackRequested
  | setPlayerInfoCall
  | playbackMetric (k : MetricKey) (v : MetricValue)
  | adMetric (k : MetricKey) (v : MetricValue)
  | reportPlaybackEnded
  | reportPlaybackFailed (msg : String)
  | adBreakStartedSdk (ty : AdType) (ap : AdPlayerKind)
  | adBreakEndedSdk
  | adSkippedSdk
  | adStartedSdk
  | adEndedSdk
  | releaseVideoAnalytics
  | releaseAdAnalytics
  | setContentInfo
  deriving DecidableEq, Repr

/-- Kind of a subtitle track (SubtitleTrack.kind in the player API). -/
inductive SubKind
  | subtitles
  | captions
  | other
  deriving DecidableEq, Repr

/-- A subtitle/caption track as observed from the player. -/
structure SubtitleTrack where
  lang : String
  label : String
  kind : SubKind
  enabled : Bool
  deriving DecidableEq, Repr

/-- Snapshot of the attached player's queried status (PlayerAPI queries
consumed by the tracker: isPlaying, isPaused, isStalled, getSource,
source title, getAudio, subtitles.list). -/
structure Player where
  isPlaying : Bool
  isPaused : Bool
  isStalled : Bool
  hasSource : Bool
  sourceTitle : String
  audioLang : String
  audioLabel : String
  subtitles : Option (List SubtitleTrack)
  deriving DecidableEq, Repr

/-- PlayerStateHelper.getPlayerStateFromEvent: the player events that map
to a Conviva player state (others yield none). -/
inductive PlayerEv
  | play
  | playing
  | paused
  | seek
  | seeked
  | timeShift
  | timeShifted
  | stallStarted
  | stallEnded
  | playbackFinished
  deriving DecidableEq, Repr

/-- PlayerStateHelper.getPlayerStateFromEvent (src/src/ts/helper/PlayerStateHelper.ts):
StallStarted maps to BUFFERING, Playing to PLAYING, Paused to PAUSED
(unconditionally), and Seeked/TimeShifted/StallEnded resolve by querying
the player's isPlaying; other events map to no state. -/
def getPlayerStateFromEvent (e : PlayerEv) (p : Player) : Option PlayerState :=
  match e with
  | PlayerEv.stallStarted => some PlayerState.buffering
  | PlayerEv.playing => some PlayerState.playing
  | PlayerEv.paused => some PlayerState.paused
  | PlayerEv.seeked => some (if p.isPlaying then PlayerState.playing else PlayerState.paused)
  | PlayerEv.timeShifted => some (if p.isPlaying then PlayerState.playing else PlayerState.paused)
  | PlayerEv.stallEnded => some (if p.isPlaying then PlayerState.playing else PlayerState.paused)
  | _ => none

/-- PlayerStateHelper.getPlayerState: the player's current state re-derived
from its isStalled / isPlaying queries. -/
def getPlayerState (p : Player) : PlayerState :=
  if p.isStalled then PlayerState.buffering
  else if p.isPlaying then PlayerState.playing
  else PlayerState.paused

/-- Modelled from the spec: the `ContentMetadataBuilder` class is referenced
by the tracker but its source file is not present under src/. Per spec 4.2,
it accumulates an asset name (caller overrides winning over values derived
from the player source; empty string means unset, matching the TS truthiness
check on `contentMetadataBuilder.assetName`) and a playback-started flag, and
`reset()` clears all accumulated state. Only the fields the tracker's control
flow depends on are modelled. -/
structure ContentMetadataBuilder where
  assetName : String
  playbackStarted : Bool
  deriving DecidableEq, Repr

/-- ConvivaAnalyticsTracker state: session existence (truthiness of
convivaVideoAnalytics), the ad-break flag, hasPlayed, the
sessionEndedExternally flag, the stall timer (deadline in ms when armed),
and the metadata builder. -/
structure Tracker where
  sessionActive : Bool
  isAdBreakActive : Bool
  hasPlayed : Bool
  sessionEndedExternally : Bool
  stallDeadline : Option Nat
  builder : ContentMetadataBuilder
  deriving DecidableEq, Repr

/-- ConvivaAnalyticsTracker.STALL_TRACKING_DELAY_MS. -/
def stallTrackingDelayMs : Nat := 100

/-- Error message thrown by initializeSession when no player is attached and
the builder has no asset name. -/
def assetNameMissingNotAttachedMsg : String :=
  "Player is not attached during session initialization and `assetName` is empty in the content metadata. Either attach the player before calling `initializeSession` or set the `assetName` manually using `updateContentMetadata`."

/-- Error message thrown by initializeSession when a player is attached but
no source is loaded and the builder has no asset name. -/
def assetNameMissingNoSourceMsg : String :=
  "Player is attached but no source is loaded and `assetName` is empty in the content metadata. Either load a source before calling `initializeSession` or set the `assetName` manually using `updateContentMetadata`."

namespace Tracker

/-- The metric emitted by the stall-tracking timeout callback and by
trackPlaybackStateChanged: PLAYER_STATE routed to the ad stream while an ad
break is active, otherwise to the content stream. -/
def reportPlayerStateMetric (t : Tracker) (s : PlayerState) : List Call :=
  if t.isAdBreakActive then [Call.adMetric MetricKey.playerState (MetricValue.state s)]
  else [Call.playbackMetric MetricKey.playerState (MetricValue.state s)]

/-- The stallTrackingTimeout firing: if the timer is armed and its deadline
has passed, report a BUFFERING player state (ad stream during an ad break,
content stream otherwise) and return to idle; a cleared (idle) timer never
fires. -/
def fireTimerIfDue (t : Tracker) (now : Nat) : Tracker × List Call :=
  match t.stallDeadline with
  | some d =>
    if d < now then ({ t with stallDeadline := none }, t.reportPlayerStateMetric PlayerState.buffering)
    else (t, [])
  | none => (t, [])

/-- The stall-onset events that (re)arm the stall timer in
trackPlaybackStateChanged (stallTrackingStartEvents). -/
def isStallStartEvent (e : PlayerEv) : Bool :=
  match e with
  | PlayerEv.play => true
  | PlayerEv.seek => true
  | PlayerEv.timeShift => true
  | _ => false

/-- The resolving events that clear the stall timer in
trackPlaybackStateChanged (stallTrackingClearEvents). -/
def isStallClearEvent (e : PlayerEv) : Bool :=
  match e with
  | PlayerEv.stallStarted => true
  | PlayerEv.playing => true
  | PlayerEv.paused => true
  | PlayerEv.seeked => true
  | PlayerEv.timeShifted => true
  | PlayerEv.stallEnded => true
  | PlayerEv.playbackFinished => true
  | _ => false

/-- ConvivaAnalyticsTracker.trackPlaybackStateChanged: no-op without a
session; otherwise (re)arm the stall timer on onset events or clear it on
resolving events, report the event-derived player state (if any) to the
active stream, and report playback-ended on PlaybackFinished. -/
def trackPlaybackStateChanged (t : Tracker) (p : Player) (now : Nat) (e : PlayerEv) :
    Tracker × List Call :=
  if t.sessionActive then
    let t1 :=
      if isStallStartEvent e then { t with stallDeadline := some (now + stallTrackingDelayMs) }
      else if isStallClearEvent e then { t with stallDeadline := none }
      else t
    let stateCalls :=
      match getPlayerStateFromEvent e p with
      | some s => t1.reportPlayerStateMetric s
      | none => []
    let endCalls := if e = PlayerEv.playbackFinished then [Call.reportPlaybackEnded] else []
    (t1, stateCalls ++ endCalls)
  else (t, [])

/-- ConvivaAnalyticsTracker.buildContentMetadata: skipped when no player is
attached; when a source is present, derives the asset name from the source
title (getAssetNameFromSource falls back to a fixed untitled string). -/
def buildContentMetadata (t : Tracker) (op : Option Player) : Tracker :=
  match op with
  | none => t
  | some p =>
    if p.hasSource then
      { t with builder := { t.builder with
          assetName := if p.sourceTitle = "" then "Untitled (no source.title set)" else p.sourceTitle } }
    else t

/-- ConvivaAnalyticsTracker.internalInitializeSession: builds metadata,
creates the video and ad analytics handles (session becomes active), reports
playback requested, sets player info when a player is attached, and reports
an initial STOPPED player-state metric. -/
def internalInitializeSession (t : Tracker) (op : Option Player) : Tracker × List Call :=
  let t1 := buildContentMetadata t op
  ({ t1 with sessionActive := true },
    [Call.reportPlaybackRequested]
      ++ (if op.isSome then [Call.setPlayerInfoCall] else [])
      ++ [Call.playbackMetric MetricKey.playerState (MetricValue.state PlayerState.stopped)])

/-- ConvivaAnalyticsTracker.initializeSession: warns and no-ops when a
session is already running; throws one of two distinct messages when no
asset name is resolvable (player not attached, or attached without a
source); otherwise initializes the session and clears the
sessionEndedExternally flag. -/
def initializeSession (t : Tracker) (op : Option Player) :
    Except String (Tracker × List Call) :=
  if t.sessionActive then Except.ok (t, [])
  else
    match op with
    | none =>
      if t.builder.assetName = "" then Except.error assetNameMissingNotAttachedMsg
      else
        let r := internalInitializeSession t none
        Except.ok ({ r.1 with sessionEndedExternally := false }, r.2)
    | some p =>
      if p.hasSource = false ∧ t.builder.assetName = "" then Except.error assetNameMissingNoSourceMsg
      else
        let r := internalInitializeSession t (some p)
        Except.ok ({ r.1 with sessionEndedExternally := false }, r.2)

/-- ConvivaAnalyticsTracker.ensurePlaybackFinished: with an active session,
synthesizes an ad-skipped report when an ad break is active, then reports
playback ended. -/
def ensurePlaybackFinished (t : Tracker) : List Call :=
  if t.sessionActive then
    (if t.isAdBreakActive then [Call.adSkippedSdk] else []) ++ [Call.reportPlaybackEnded]
  else []

/-- ConvivaAnalyticsTracker.internalEndSession: resets the metadata builder,
releases the video and ad analytics handles, and clears hasPlayed and the
ad-break flag. -/
def internalEndSession (t : Tracker) : Tracker × List Call :=
  if t.sessionActive then
    ({ t with
        sessionActive := false
        hasPlayed := false
        isAdBreakActive := false
        builder := { assetName := "", playbackStarted := false } },
      [Call.releaseVideoAnalytics, Call.releaseAdAnalytics])
  else (t, [])

/-- ConvivaAnalyticsTracker.endSession: no-op without a session; otherwise
ensurePlaybackFinished, internalEndSession, and set sessionEndedExternally. -/
def endSession (t : Tracker) : Tracker × List Call :=
  if t.sessionActive then
    let c1 := t.ensurePlaybackFinished
    let r := t.internalEndSession
    ({ r.1 with sessionEndedExternally := true }, c1 ++ r.2)
  else (t, [])

/-- ConvivaAnalyticsTracker.reportPlaybackDeficiency: no-op without a
session; otherwise reports playback failed with the given message (the
severity argument is accepted but, as in the source, not forwarded to the
vendor call) and, when endSes is set, ends the session internally. -/
def reportPlaybackDeficiency (t : Tracker) (msg : String) (_sev : ErrorSeverity)
    (endSes : Bool) : Tracker × List Call :=
  if t.sessionActive then
    let c1 := [Call.reportPlaybackFailed msg]
    if endSes then
      let r := t.internalEndSession
      (r.1, c1 ++ r.2)
    else (t, c1)
  else (t, [])

/-- ConvivaAnalyticsTracker.trackError: initializes a session first when none
is active and the session was not ended externally (to capture video start
failures), then reports a FATAL playback deficiency built from the event's
code and name. -/
def trackError (t : Tracker) (op : Option Player) (code : Int) (name : String) :
    Tracker × List Call :=
  let r1 :=
    if !t.sessionActive && !t.sessionEndedExternally then t.internalInitializeSession op
    else (t, [])
  let r2 := r1.1.reportPlaybackDeficiency (toString code ++ " " ++ name) ErrorSeverity.fatal true
  (r2.1, r1.2 ++ r2.2)

/-- ConvivaAnalyticsTracker.trackAdBreakStarted: guarded by session activity;
sets the ad-break flag and reports ad-break-started with player SEPARATE for
client-side ads and CONTENT for server-side ads. -/
def trackAdBreakStarted (t : Tracker) (ty : AdType) : Tracker × List Call :=
  if t.sessionActive then
    ({ t with isAdBreakActive := true },
      [Call.adBreakStartedSdk ty
        (if ty = AdType.clientSide then AdPlayerKind.separate else AdPlayerKind.content)])
  else (t, [])

/-- ConvivaAnalyticsTracker.trackAdBreakFinished: guarded by session
activity; clears the ad-break flag, reports ad-break-ended, then reports the
player's current state (re-derived via PlayerStateHelper.getPlayerState) to
the content stream. -/
def trackAdBreakFinished (t : Tracker) (p : Player) : Tracker × List Call :=
  if t.sessionActive then
    ({ t with isAdBreakActive := false },
      [Call.adBreakEndedSdk,
        Call.playbackMetric MetricKey.playerState (MetricValue.state (getPlayerState p))])
  else (t, [])

/-- ConvivaAnalyticsTracker.trackAdSkipped: guarded by session activity. -/
def trackAdSkipped (t : Tracker) : Tracker × List Call :=
  if t.sessionActive then (t, [Call.adSkippedSdk]) else (t, [])

/-- Formatting of an audio/subtitle track language used by
trackUpdateAudioTrack and trackUpdateSubtitleTrack. -/
def formatTrack (lang label : String) : String :=
  if lang = "unknown" then label else "[" ++ lang ++ "]:" ++ label

/-- ConvivaAnalyticsTracker.trackUpdateAudioTrack: reports the formatted
audio language (guarded by session activity). -/
def trackUpdateAudioTrack (t : Tracker) (p : Player) : List Call :=
  if t.sessionActive then
    [Call.playbackMetric MetricKey.audioLanguage
      (MetricValue.str (formatTrack p.audioLang p.audioLabel))]
  else []

/-- ConvivaAnalyticsTracker.trackTurnOffSubtitles: reports both subtitle and
closed-caption channels as off (guarded by session activity). -/
def trackTurnOffSubtitles (t : Tracker) : List Call :=
  if t.sessionActive then
    [Call.playbackMetric MetricKey.subtitlesLanguage (MetricValue.str "off"),
      Call.playbackMetric MetricKey.closedCaptionsLanguage (MetricValue.str "off")]
  else []

/-- ConvivaAnalyticsTracker.trackUpdateSubtitleTrack: reports the enabled
channel and explicitly reports the other one as off; unknown kinds turn both
channels off. -/
def trackUpdateSubtitleTrack (t : Tracker) (st : SubtitleTrack) : List Call :=
  if t.sessionActive then
    match st.kind with
    | SubKind.subtitles =>
      [Call.playbackMetric MetricKey.subtitlesLanguage
          (MetricValue.str (formatTrack st.lang st.label)),
        Call.playbackMetric MetricKey.closedCaptionsLanguage (MetricValue.str "off")]
    | SubKind.captions =>
      [Call.playbackMetric MetricKey.closedCaptionsLanguage
          (MetricValue.str (formatTrack st.lang st.label)),
        Call.playbackMetric MetricKey.subtitlesLanguage (MetricValue.str "off")]
    | SubKind.other => t.trackTurnOffSubtitles
  else []

/-- ConvivaAnalyticsTracker.trackInitialSubtitles: scans for exactly one
enabled subtitle track and reports it, otherwise turns both channels off. -/
def trackInitialSubtitles (t : Tracker) (p : Player) : List Call :=
  if t.sessionActive then
    match p.subtitles with
    | some l =>
      match l.filter (fun s => s.enabled) with
      | [st] => t.trackUpdateSubtitleTrack st
      | _ => t.trackTurnOffSubtitles
    | none => t.trackTurnOffSubtitles
  else []

end Tracker

/-- ConvivaAnalyticsSsai state: its own server-side ad-break flag. -/
structure Ssai where
  isAdBreakActive : Bool
  deriving DecidableEq, Repr

/-- ConvivaAnalyticsSsai.reportAdBreakStarted: no-ops when either the
tracker's (CSAI) ad-break flag or the SSAI flag is already active; otherwise
sets the SSAI flag and starts a server-side ad break on the tracker. -/
def ssaiReportAdBreakStarted (ss : Ssai) (t : Tracker) : Ssai × Tracker × List Call :=
  if t.isAdBreakActive || ss.isAdBreakActive then (ss, t, [])
  else
    let r := t.trackAdBreakStarted AdType.serverSide
    ({ isAdBreakActive := true }, r.1, r.2)

/-- ConvivaAnalyticsSsai.reportAdBreakFinished: no-ops when no SSAI ad break
is active; otherwise clears the SSAI flag and finishes the ad break on the
tracker. -/
def ssaiReportAdBreakFinished (ss : Ssai) (t : Tracker) (p : Player) :
    Ssai × Tracker × List Call :=
  if ss.isAdBreakActive then
    let r := t.trackAdBreakFinished p
    ({ isAdBreakActive := false }, r.1, r.2)
  else (ss, t, [])

/-- The combined handling of a Play event through the registered handlers:
the tracker's onPlay (guarded by canTrackPlayEvent; initializes a session
when none is active and the session was not ended externally; on the first
play of a session reports initial audio and subtitle languages), followed by
ConvivaAnalytics.onPlay which (again guarded by canTrackPlayEvent) forwards
to trackPlaybackStateChanged. -/
def handleOnPlay (t : Tracker) (p : Player) (now : Nat) : Tracker × List Call :=
  if t.isAdBreakActive then (t, [])
  else
    let r1 :=
      if !t.sessionActive && !t.sessionEndedExternally then t.internalInitializeSession (some p)
      else (t, [])
    let r2 :=
      if !r1.1.hasPlayed then
        let ta := { r1.1 with hasPlayed := true }
        (ta, ta.trackUpdateAudioTrack p ++ ta.trackInitialSubtitles p)
      else (r1.1, [])
    let r3 :=
      if r2.1.isAdBreakActive then (r2.1, [])
      else r2.1.trackPlaybackStateChanged p now PlayerEv.play
    (r3.1, r1.2 ++ r2.2 ++ r3.2)

/-- The combined handling of a Playing event through the registered
handlers: the tracker's onPlaying (marks playback started on the builder and
pushes a content-info update while a session is active), followed by
ConvivaAnalytics.onPlaying which forwards to trackPlaybackStateChanged. -/
def handleOnPlaying (t : Tracker) (p : Player) (now : Nat) : Tracker × List Call :=
  let r1 :=
    if t.sessionActive then
      ({ t with builder := { t.builder with playbackStarted := true } }, [Call.setContentInfo])
    else (t, [])
  let r2 := r1.1.trackPlaybackStateChanged p now PlayerEv.playing
  (r2.1, r1.2 ++ r2.2)

/-- The alphabet of the session-startup trace property: sequences of
play and playing player events. -/
inductive PlayEv
  | play
  | playing
  deriving DecidableEq, Repr

/-- Runs a sequence of play/playing events through the registered handlers,
collecting the emitted vendor calls. -/
def runPlayEvents (t : Tracker) (p : Player) : List PlayEv → Tracker × List Call
  | [] => (t, [])
  | e :: rest =>
    let r1 :=
      match e with
      | PlayEv.play => handleOnPlay t p 0
      | PlayEv.playing => handleOnPlaying t p 0
    let r2 := runPlayEvents r1.1 p rest
    (r2.1, r1.2 ++ r2.2)

/-- Whether a call is a PLAYING player-state metric (on either stream). -/
def isPlayingMetric (c : Call) : Bool :=
  match c with
  | Call.playbackMetric MetricKey.playerState (MetricValue.state PlayerState.playing) => true
  | Call.adMetric MetricKey.playerState (MetricValue.state PlayerState.playing) => true
  | _ => false

/-- Whether a call is a STOPPED player-state metric on the content stream. -/
def isStoppedMetric (c : Call) : Bool :=
  match c with
  | Call.playbackMetric MetricKey.playerState (MetricValue.state PlayerState.stopped) => true
  | _ => false

/-- Scans a call trace and checks that no PLAYING player-state metric occurs
before a STOPPED one has been reported (the accumulator records whether a
STOPPED metric has been seen). -/
def stoppedBeforePlaying (seen : Bool) : List Call → Bool
  | [] => true
  | c :: rest =>
    if isPlayingMetric c && !seen then false
    else stoppedBeforePlaying (seen || isStoppedMetric c) rest

/-- The executed body of ConvivaAnalyticsTracker.reportAdEnded, which reads
`try { this.reportAdEnded(); } catch (error) { this.debugLog(...); }` and
therefore invokes itself rather than `this.convivaAdAnalytics.reportAdEnded()`
named in its own comment. Indexed by the remaining stack budget: at budget 0
the invocation itself faults (stack exhaustion, modelled as Except.error);
otherwise the body re-invokes itself with one less frame and its catch block
turns any fault of the inner invocation into a logged, normal return. The
result on success is the list of vendor-SDK calls performed together with
whether the catch block ran. -/
def reportAdEndedRun : Nat → Except Unit (List Call × Bool)
  | 0 => Except.error ()
  | n + 1 =>
    match reportAdEndedRun n with
    | Except.error _ => Except.ok ([], true)
    | Except.ok res => Except.ok res

/-- A tracker in its initial state: no session, no ad break, nothing played,
not externally ended, timer idle, empty builder. -/
def freshTracker : Tracker :=
  { sessionActive := false
    isAdBreakActive := false
    hasPlayed := false
    sessionEndedExternally := false
    stallDeadline := none
    builder := { assetName := "", playbackStarted := false } }

/-- A tracker with an active session and no ad break. -/
def activeTracker : Tracker :=
  { sessionActive := true
    isAdBreakActive := false
    hasPlayed := true
    sessionEndedExternally := false
    stallDeadline := none
    builder := { assetName := "Asset", playbackStarted := true } }

/-- A player snapshot that is currently playing. -/
def playingPlayer : Player :=
  { isPlaying := true
    isPaused := false
    isStalled := false
    hasSource := true
    sourceTitle := "Asset"
    audioLang := "en"
    audioLabel := "English"
    subtitles := none }

/-- A player snapshot that is currently paused (and in particular reports
isPaused true). -/
def pausedPlayer : Player :=
  { isPlaying := false
    isPaused := true
    isStalled := false
    hasSource := true
    sourceTitle := "Asset"
    audioLang := "en"
    audioLabel := "English"
    subtitles := none }

/-- A player snapshot whose isPaused query still reports false. -/
def notYetPausedPlayer : Player :=
  { isPlaying := true
    isPaused := false
    isStalled := false
    hasSource := true
    sourceTitle := "Asset"
    audioLang := "en"
    audioLabel := "English"
    subtitles := none }

/-- Counts vendor-level ad-break-started calls in a trace. -/
def countAdBreakStartCalls (l : List Call) : Nat :=
  l.countP (fun c => match c with | Call.adBreakStartedSdk _ _ => true | _ => false)

/-- A tracker with an active session and an active ad break. -/
def adActiveTracker : Tracker :=
  { activeTracker with isAdBreakActive := true }

/-- The tracker state produced by a successful initializeSession on a fresh
tracker with an attached playing player. -/
def initializedTracker : Tracker :=
  { sessionActive := true
    isAdBreakActive := false
    hasPlayed := false
    sessionEndedExternally := false
    stallDeadline := none
    builder := { assetName := "Asset", playbackStarted := false } }

/-- Claim C1, counterexample: the claim states that the PLAYER_STATE reported
immediately after trackAdBreakFinished equals the player state active
immediately before trackAdBreakStarted for every evolution of the player
state during the ad break. Concretely: the pre-ad state is PLAYING, the
player is paused by the time the ad break finishes, and the reported metric
is PAUSED, not the saved pre-ad PLAYING — the code re-derives the state from
the player instead of restoring a saved one. -/
theorem claim_C1_counterexample :
    getPlayerState playingPlayer = PlayerState.playing ∧
    (Tracker.trackAdBreakFinished
        (Tracker.trackAdBreakStarted activeTracker AdType.clientSide).1 pausedPlayer).2 =
      [Call.adBreakEndedSdk,
        Call.playbackMetric MetricKey.playerState (MetricValue.state PlayerState.paused)] ∧
    PlayerState.paused ≠ PlayerState.playing := by
  refine ⟨rfl, rfl, by decide⟩

/-- Claim C1, amended: with an active session, trackAdBreakFinished clears
the ad-break flag, reports ad-break-ended, and reports to the content stream
the player's CURRENT state, re-derived from the player via
PlayerStateHelper.getPlayerState (buffering if stalled, else playing if
playing, else paused); no pre-ad state is saved by trackAdBreakStarted or
restored on exit. -/
theorem claim_C1_amended (t : Tracker) (p : Player) (h : t.sessionActive = true) :
    Tracker.trackAdBreakFinished t p =
      ({ t with isAdBreakActive := false },
        [Call.adBreakEndedSdk,
          Call.playbackMetric MetricKey.playerState (MetricValue.state (getPlayerState p))]) := by
  simp [Tracker.trackAdBreakFinished, h]

/-- Claim C1, witness for the amended theorem at a concrete active tracker
and paused player. -/
theorem claim_C1_witness :
    Tracker.trackAdBreakFinished activeTracker pausedPlayer =
      ({ activeTracker with isAdBreakActive := false },
        [Call.adBreakEndedSdk,
          Call.playbackMetric MetricKey.playerState
            (MetricValue.state (getPlayerState pausedPlayer))]) :=
  claim_C1_amended activeTracker pausedPlayer rfl

/-- Claim C2: endSession is a no-op when no session is active; with an
active session and an active ad break it reports ad-skipped before
playback-ended, then releases the content and ad sub-handles, and afterwards
the ad-break flag and hasPlayed are reset (and the session is inactive). -/
theorem claim_C2 (t : Tracker) :
    (t.sessionActive = false → Tracker.endSession t = (t, [])) ∧
    (t.sessionActive = true → t.isAdBreakActive = true →
      (Tracker.endSession t).2 =
          [Call.adSkippedSdk, Call.reportPlaybackEnded,
            Call.releaseVideoAnalytics, Call.releaseAdAnalytics] ∧
        (Tracker.endSession t).1.isAdBreakActive = false ∧
        (Tracker.endSession t).1.hasPlayed = false ∧
        (Tracker.endSession t).1.sessionActive = false) := by
  constructor
  · intro h
    simp [Tracker.endSession, h]
  · intro h1 h2
    simp [Tracker.endSession, Tracker.ensurePlaybackFinished, Tracker.internalEndSession, h1, h2]

/-- Claim C2, witness at a concrete tracker with an active session and an
active ad break. -/
theorem claim_C2_witness :
    (Tracker.endSession adActiveTracker).2 =
        [Call.adSkippedSdk, Call.reportPlaybackEnded,
          Call.releaseVideoAnalytics, Call.releaseAdAnalytics] ∧
      (Tracker.endSession adActiveTracker).1.isAdBreakActive = false ∧
      (Tracker.endSession adActiveTracker).1.hasPlayed = false ∧
      (Tracker.endSession adActiveTracker).1.sessionActive = false :=
  (claim_C2 adActiveTracker).2 rfl rfl

/-- Claim C6, counterexample: the claim states that a Paused event fired
while the player's isPaused() still reports false yields no PLAYER_STATE
metric; concretely, with an active session and a player whose isPaused is
false, the Paused event still yields a PAUSED PLAYER_STATE metric — the
event-to-state mapping returns PAUSED for Paused events without consulting
the player. -/
theorem claim_C6_counterexample :
    notYetPausedPlayer.isPaused = false ∧
    activeTracker.sessionActive = true ∧
    (Tracker.trackPlaybackStateChanged activeTracker notYetPausedPlayer 0 PlayerEv.paused).2 =
      [Call.playbackMetric MetricKey.playerState (MetricValue.state PlayerState.paused)] := by
  refine ⟨rfl, rfl, rfl⟩

/-- Claim C6, amended: during an active session a Paused player event always
yields a PAUSED PLAYER_STATE metric (to the ad stream during an ad break,
else the content stream), regardless of the player's isPaused() — the
Paused branch of getPlayerStateFromEvent is unconditional, and the player is
only consulted (via isPlaying) for Seeked/TimeShifted/StallEnded events. -/
theorem claim_C6_amended (t : Tracker) (p : Player) (now : Nat)
    (h : t.sessionActive = true) :
    (Tracker.trackPlaybackStateChanged t p now PlayerEv.paused).2 =
      (if t.isAdBreakActive then
        [Call.adMetric MetricKey.playerState (MetricValue.state PlayerState.paused)]
      else
        [Call.playbackMetric MetricKey.playerState (MetricValue.state PlayerState.paused)]) := by
  simp [Tracker.trackPlaybackStateChanged, Tracker.isStallStartEvent, Tracker.isStallClearEvent,
    getPlayerStateFromEvent, Tracker.reportPlayerStateMetric, h]

/-- Claim C6, witness for the amended theorem at a concrete active tracker
and a player that does report isPaused true. -/
theorem claim_C6_witness :
    (Tracker.trackPlaybackStateChanged activeTracker pausedPlayer 0 PlayerEv.paused).2 =
      (if activeTracker.isAdBreakActive then
        [Call.adMetric MetricKey.playerState (MetricValue.state PlayerState.paused)]
      else
        [Call.playbackMetric MetricKey.playerState (MetricValue.state PlayerState.paused)]) :=
  claim_C6_amended activeTracker pausedPlayer 0 rfl

/-- Claim C8, counterexample: the claim states that a CSAI ad-break start
while an SSAI break is active is a no-op. Concretely: after the SSAI entry
point starts a server-side ad break on an active session, a client-side
trackAdBreakStarted still proceeds and reports ad-break-started again, so
the trace holds two ad-break-started calls. -/
theorem claim_C8_counterexample :
    (ssaiReportAdBreakStarted { isAdBreakActive := false } activeTracker).2.1.isAdBreakActive
        = true ∧
    (Tracker.trackAdBreakStarted
        (ssaiReportAdBreakStarted { isAdBreakActive := false } activeTracker).2.1
        AdType.clientSide).2 =
      [Call.adBreakStartedSdk AdType.clientSide AdPlayerKind.separate] ∧
    countAdBreakStartCalls
        ((ssaiReportAdBreakStarted { isAdBreakActive := false } activeTracker).2.2 ++
          (Tracker.trackAdBreakStarted
            (ssaiReportAdBreakStarted { isAdBreakActive := false } activeTracker).2.1
            AdType.clientSide).2) = 2 := by
  refine ⟨rfl, rfl, rfl⟩

/-- Claim C8, amended: the single tracker ad-break flag means at most one ad
break is active at a time, and the SSAI entry point checks both the
tracker's (CSAI) flag and its own flag, no-opping when either is set — in
particular a second SSAI reportAdBreakStarted while active adds no
ad-break-started call; but the CSAI path (trackAdBreakStarted) is guarded
only by session activity and does not check the SSAI flag, so a CSAI
ad-break start while an SSAI break is active proceeds and reports
ad-break-started again. -/
theorem claim_C8_amended (ss : Ssai) (t : Tracker) (ty : AdType) :
    (t.isAdBreakActive = true → ssaiReportAdBreakStarted ss t = (ss, t, [])) ∧
    (ss.isAdBreakActive = true → ssaiReportAdBreakStarted ss t = (ss, t, [])) ∧
    (t.sessionActive = true →
      Tracker.trackAdBreakStarted t ty =
        ({ t with isAdBreakActive := true },
          [Call.adBreakStartedSdk ty
            (if ty = AdType.clientSide then AdPlayerKind.separate else AdPlayerKind.content)])) := by
  refine ⟨?_, ?_, ?_⟩
  · intro h
    simp [ssaiReportAdBreakStarted, h]
  · intro h
    simp [ssaiReportAdBreakStarted, h]
  · intro h
    simp [Tracker.trackAdBreakStarted, h]

/-- Claim C8, witness for the amended theorem: a second SSAI start while
already active is a no-op, at a concrete active SSAI state. -/
theorem claim_C8_witness :
    ssaiReportAdBreakStarted { isAdBreakActive := true } adActiveTracker =
      ({ isAdBreakActive := true }, adActiveTracker, []) :=
  (claim_C8_amended { isAdBreakActive := true } adActiveTracker AdType.serverSide).2.1 rfl

/-- Claim C10 (code bug): the claim states that every report* wrapper
forwards to the downstream vendor SDK and catches any exception the SDK call
throws. The reportAdEnded wrapper instead invokes itself inside its own try
block (its comment names this.convivaAdAnalytics.reportAdEnded, but the body
calls this.reportAdEnded), so for every positive stack budget the executed
call makes zero vendor-SDK calls — in particular it never performs the
vendor ad-ended call — and returns only after its catch block has caught the
inner invocation's stack exhaustion. -/
theorem claim_C10_code_bug : ∀ n : Nat, reportAdEndedRun (n + 1) = Except.ok ([], true) := by
  intro n
  induction n with
  | zero => rfl
  | succ k ih => rw [reportAdEndedRun, ih]

/-- Claim C4: calling initializeSession twice in a row without an
intervening endSession results in exactly one session — whenever a call
returns successfully (including the already-active warning path), an
immediately following call returns the same tracker state unchanged and
performs no analytics calls. -/
theorem claim_C4 (t t1 : Tracker) (op : Option Player) (c1 : List Call)
    (h : Tracker.initializeSession t op = Except.ok (t1, c1)) :
    Tracker.initializeSession t1 op = Except.ok (t1, []) := by
  have ha : t1.sessionActive = true := by
    by_cases hs : t.sessionActive = true
    · simp [Tracker.initializeSession, hs] at h
      rw [← h.1, hs]
    · cases op with
      | none =>
        by_cases hb : t.builder.assetName = ""
        · simp [Tracker.initializeSession, hs, hb] at h
        · simp [Tracker.initializeSession, hs, hb] at h
          rw [← h.1]
          simp [Tracker.internalInitializeSession]
      | some p =>
        by_cases hc : p.hasSource = false ∧ t.builder.assetName = ""
        · simp [Tracker.initializeSession, hs, hc] at h
        · simp [Tracker.initializeSession, hs, hc] at h
          rw [← h.1]
          simp [Tracker.internalInitializeSession]
  simp [Tracker.initializeSession, ha]

/-- Claim C4, witness: a successful initializeSession on a fresh tracker
with a playing player, followed by a second call that is a no-op. -/
theorem claim_C4_witness :
    Tracker.initializeSession initializedTracker (some playingPlayer) =
      Except.ok (initializedTracker, []) :=
  claim_C4 freshTracker initializedTracker (some playingPlayer)
    [Call.reportPlaybackRequested, Call.setPlayerInfoCall,
      Call.playbackMetric MetricKey.playerState (MetricValue.state PlayerState.stopped)]
    rfl

/-- Claim C5: with no session active, initializeSession throws exactly when
no asset name is resolvable from the already-applied builder overrides or
from the attached player's current source; the message when no player is
attached differs from the message when a player is attached but no source is
loaded; and the error return means no session is created. -/
theorem claim_C5 (t : Tracker) (op : Option Player) (h : t.sessionActive = false) :
    ((∃ m, Tracker.initializeSession t op = Except.error m) ↔
        (t.builder.assetName = "" ∧
          (op = none ∨ ∃ p, op = some p ∧ p.hasSource = false))) ∧
    (op = none → t.builder.assetName = "" →
      Tracker.initializeSession t op = Except.error assetNameMissingNotAttachedMsg) ∧
    (∀ p, op = some p → p.hasSource = false → t.builder.assetName = "" →
      Tracker.initializeSession t op = Except.error assetNameMissingNoSourceMsg) ∧
    assetNameMissingNotAttachedMsg ≠ assetNameMissingNoSourceMsg := by
  refine ⟨?_, ?_, ?_, by decide⟩
  · match op with
    | none =>
      by_cases ha : t.builder.assetName = "" <;>
        simp [Tracker.initializeSession, h, ha]
    | some p =>
      by_cases ha : t.builder.assetName = "" <;>
        by_cases hsrc : p.hasSource = true <;>
          simp_all [Tracker.initializeSession, h, ha]
  · intro hop ha
    subst hop
    simp [Tracker.initializeSession, h, ha]
  · intro p hop hsrc ha
    subst hop
    simp [Tracker.initializeSession, h, ha, hsrc]

/-- Claim C5, witness: on a fresh tracker with no attached player,
initializeSession throws the player-not-attached message, which differs from
the no-source message. -/
theorem claim_C5_witness :
    Tracker.initializeSession freshTracker none =
        Except.error assetNameMissingNotAttachedMsg ∧
      assetNameMissingNotAttachedMsg ≠ assetNameMissingNoSourceMsg :=
  ⟨(claim_C5 freshTracker none rfl).2.1 rfl rfl,
    (claim_C5 freshTracker none rfl).2.2.2⟩

/-- Claim C9: trackError, when no session is active and the session was not
ended externally, first initializes a session, then reports a playback
deficiency whose message is built from the event's code and name (passed
with FATAL severity to reportPlaybackDeficiency), and then ends that session
(the final state is inactive and both sub-handles are released); when the
session was ended externally, no session is created and no deficiency is
reported. -/
theorem claim_C9 (t : Tracker) (op : Option Player) (code : Int) (name : String)
    (h : t.sessionActive = false) :
    (t.sessionEndedExternally = false →
      Tracker.trackError t op code name =
          ((Tracker.reportPlaybackDeficiency (Tracker.internalInitializeSession t op).1
              (toString code ++ " " ++ name) ErrorSeverity.fatal true).1,
            (Tracker.internalInitializeSession t op).2 ++
              [Call.reportPlaybackFailed (toString code ++ " " ++ name),
                Call.releaseVideoAnalytics, Call.releaseAdAnalytics]) ∧
        (Tracker.trackError t op code name).1.sessionActive = false) ∧
    (t.sessionEndedExternally = true → Tracker.trackError t op code name = (t, [])) := by
  constructor
  · intro h2
    have hact : (Tracker.internalInitializeSession t op).1.sessionActive = true := by
      simp [Tracker.internalInitializeSession]
    constructor
    · simp [Tracker.trackError, h, h2, Tracker.reportPlaybackDeficiency, hact,
        Tracker.internalEndSession]
    · simp [Tracker.trackError, h, h2, Tracker.reportPlaybackDeficiency, hact,
        Tracker.internalEndSession]
  · intro h2
    simp [Tracker.trackError, h, h2, Tracker.reportPlaybackDeficiency]

/-- Claim C9, witness at a fresh tracker (no session, not ended externally)
with an attached playing player and a concrete error event. -/
theorem claim_C9_witness :
    Tracker.trackError freshTracker (some playingPlayer) 1001 "ERROR" =
        ((Tracker.reportPlaybackDeficiency
            (Tracker.internalInitializeSession freshTracker (some playingPlayer)).1
            (toString (1001 : Int) ++ " " ++ "ERROR") ErrorSeverity.fatal true).1,
          (Tracker.internalInitializeSession freshTracker (some playingPlayer)).2 ++
            [Call.reportPlaybackFailed (toString (1001 : Int) ++ " " ++ "ERROR"),
              Call.releaseVideoAnalytics, Call.releaseAdAnalytics]) ∧
      (Tracker.trackError freshTracker (some playingPlayer) 1001 "ERROR").1.sessionActive
        = false :=
  (claim_C9 freshTracker (some playingPlayer) 1001 "ERROR" rfl).1 rfl

/-- A resolving (timer-clearing) event is never also a stall-onset event:
the stallTrackingStartEvents and stallTrackingClearEvents lists are
disjoint. -/
theorem isStallClearEvent_not_start (e : PlayerEv)
    (h : Tracker.isStallClearEvent e = true) : Tracker.isStallStartEvent e = false := by
  cases e <;> simp_all [Tracker.isStallStartEvent, Tracker.isStallClearEvent]

/-- With an active session, the state component of trackPlaybackStateChanged
only updates the stall-timer slot: onset events re-arm it to a fixed-delay
deadline and resolving events clear it. -/
theorem trackPlaybackStateChanged_fst (t : Tracker) (p : Player) (now : Nat) (e : PlayerEv)
    (hs : t.sessionActive = true) :
    (Tracker.trackPlaybackStateChanged t p now e).1 =
      (if Tracker.isStallStartEvent e then
        { t with stallDeadline := some (now + stallTrackingDelayMs) }
      else if Tracker.isStallClearEvent e then { t with stallDeadline := none } else t) := by
  simp [Tracker.trackPlaybackStateChanged, hs]

/-- Claim C7: during an active session, every stall-onset event (play, seek,
timeShift) processed by trackPlaybackStateChanged (re)arms the single stall
timer to a fixed-delay deadline; a resolving event clears it; if the
resolving event arrives before the grace window expires, the timer emits no
BUFFERING metric in the interval, and a cleared timer never fires; if
resolution arrives after the grace window, the timer fires exactly one
BUFFERING report before the resolving event is processed, routed to the ad
stream when an ad break is active and to the content stream otherwise. -/
theorem claim_C7 (t : Tracker) (p q : Player) (t0 t1 : Nat) (o r : PlayerEv)
    (ho : Tracker.isStallStartEvent o = true)
    (hr : Tracker.isStallClearEvent r = true)
    (hs : t.sessionActive = true) :
    (Tracker.trackPlaybackStateChanged t p t0 o).1.stallDeadline
        = some (t0 + stallTrackingDelayMs) ∧
    (Tracker.trackPlaybackStateChanged
        (Tracker.fireTimerIfDue (Tracker.trackPlaybackStateChanged t p t0 o).1 t1).1
        q t1 r).1.stallDeadline = none ∧
    (t1 < t0 + stallTrackingDelayMs →
      (Tracker.fireTimerIfDue (Tracker.trackPlaybackStateChanged t p t0 o).1 t1).2 = []) ∧
    (t0 + stallTrackingDelayMs < t1 →
      (Tracker.fireTimerIfDue (Tracker.trackPlaybackStateChanged t p t0 o).1 t1).2 =
        (if t.isAdBreakActive then
          [Call.adMetric MetricKey.playerState (MetricValue.state PlayerState.buffering)]
        else
          [Call.playbackMetric MetricKey.playerState (MetricValue.state PlayerState.buffering)])) ∧
    (∀ n : Nat,
      (Tracker.fireTimerIfDue
          (Tracker.trackPlaybackStateChanged
            (Tracker.fireTimerIfDue (Tracker.trackPlaybackStateChanged t p t0 o).1 t1).1
            q t1 r).1 n).2 = []) := by
  have hns := isStallClearEvent_not_start r hr
  have h1 : (Tracker.trackPlaybackStateChanged t p t0 o).1 =
      { t with stallDeadline := some (t0 + stallTrackingDelayMs) } := by
    rw [trackPlaybackStateChanged_fst t p t0 o hs]
    simp [ho]
  refine ⟨?_, ?_, ?_, ?_, ?_⟩
  · rw [h1]
  · rw [h1]
    by_cases hd : t0 + stallTrackingDelayMs < t1 <;>
      simp [Tracker.fireTimerIfDue, hd, Tracker.trackPlaybackStateChanged, hs, hns, hr]
  · intro hlt
    have hd : ¬ (t0 + stallTrackingDelayMs < t1) := by omega
    rw [h1]
    simp [Tracker.fireTimerIfDue, hd]
  · intro hgt
    rw [h1]
    simp [Tracker.fireTimerIfDue, hgt, Tracker.reportPlayerStateMetric]
  · intro n
    rw [h1]
    by_cases hd : t0 + stallTrackingDelayMs < t1 <;>
      simp [Tracker.fireTimerIfDue, hd, Tracker.trackPlaybackStateChanged, hs, hns, hr]

/-- Claim C7, witness: a seek at time 0 followed by seeked at time 300
(beyond the 100 ms grace window) on an active session without an ad break
yields the single content-stream BUFFERING report before resolution. -/
theorem claim_C7_witness :
    (Tracker.fireTimerIfDue
        (Tracker.trackPlaybackStateChanged activeTracker playingPlayer 0 PlayerEv.seek).1
        300).2 =
      (if activeTracker.isAdBreakActive then
        [Call.adMetric MetricKey.playerState (MetricValue.state PlayerState.buffering)]
      else
        [Call.playbackMetric MetricKey.playerState (MetricValue.state PlayerState.buffering)]) :=
  (claim_C7 activeTracker playingPlayer playingPlayer 0 300 PlayerEv.seek PlayerEv.seeked
      rfl rfl rfl).2.2.2.1 (by decide)

/-- Once a STOPPED metric has been seen, the scan can no longer fail. -/
theorem stoppedBeforePlaying_true (l : List Call) : stoppedBeforePlaying true l = true := by
  induction l with
  | nil => rfl
  | cons c rest ih => simp [stoppedBeforePlaying, ih]

/-- A trace that begins with the session-initialization calls (playback
requested, player info, STOPPED player-state metric) passes the scan
whatever follows. -/
theorem stoppedBeforePlaying_prefix (l : List Call) :
    stoppedBeforePlaying false
      (Call.reportPlaybackRequested :: Call.setPlayerInfoCall ::
        Call.playbackMetric MetricKey.playerState (MetricValue.state PlayerState.stopped) :: l)
      = true := by
  simp [stoppedBeforePlaying, isPlayingMetric, isStoppedMetric, stoppedBeforePlaying_true]

/-- Over every sequence of play/playing events starting from a tracker with
no session, no ad break, and no external session end, the emitted call trace
never reports a PLAYING player-state metric before a STOPPED one. -/
theorem runPlayEvents_stopped_ok (p : Player) (evs : List PlayEv) :
    ∀ t : Tracker, t.isAdBreakActive = false → t.sessionEndedExternally = false →
      t.sessionActive = false →
      stoppedBeforePlaying false (runPlayEvents t p evs).2 = true := by
  induction evs with
  | nil =>
    intro t _ _ _
    rfl
  | cons e rest ih =>
    intro t h1 h2 h3
    cases e with
    | playing =>
      have hstep : runPlayEvents t p (PlayEv.playing :: rest) = runPlayEvents t p rest := by
        simp [runPlayEvents, handleOnPlaying, Tracker.trackPlaybackStateChanged, h3]
      rw [hstep]
      exact ih t h1 h2 h3
    | play =>
      simp [runPlayEvents, handleOnPlay, h1, h2, h3, Tracker.internalInitializeSession,
        Tracker.buildContentMetadata, Tracker.trackPlaybackStateChanged,
        getPlayerStateFromEvent, stoppedBeforePlaying, isPlayingMetric, isStoppedMetric,
        stoppedBeforePlaying_true]

/-- Claim C3: successful session initialization reports playback requested
and then a STOPPED player-state metric (with the player-info call between
them when a player is attached), and over every sequence of play/playing
events from the initial tracker state this STOPPED report occurs before the
first PLAYING player-state metric of the session. -/
theorem claim_C3 :
    (∀ (t : Tracker) (p : Player),
        (Tracker.internalInitializeSession t (some p)).2 =
          [Call.reportPlaybackRequested, Call.setPlayerInfoCall,
            Call.playbackMetric MetricKey.playerState (MetricValue.state PlayerState.stopped)]) ∧
    (∀ (p : Player) (evs : List PlayEv),
        stoppedBeforePlaying false (runPlayEvents freshTracker p evs).2 = true) := by
  constructor
  · intro t p
    simp [Tracker.internalInitializeSession]
  · intro p evs
    exact runPlayEvents_stopped_ok p evs freshTracker rfl rfl rfl

end ConvivaModel
